import Mathlib

/-!
Verification of the IGoR import module (`immuneML/IO/dataset_import/IGoRImport.py`):
a shallow embedding of the codon translator `translate_sequence` and of the
row-filtering pipeline `preprocess_dataframe`, together with theorems settling
the specified properties of both.
-/

namespace IGoRImport

/-- The fixed 64-entry codon table `IGoRImport.CODON_TABLE`, transcribed entry by
entry in source order (a Python dict with distinct string keys; association-list
lookup is equivalent). -/
def CODON_TABLE : List (String × String) := [
  ("ATA", "I"), ("ATC", "I"), ("ATT", "I"), ("ATG", "M"),
  ("ACA", "T"), ("ACC", "T"), ("ACG", "T"), ("ACT", "T"),
  ("AAC", "N"), ("AAT", "N"), ("AAA", "K"), ("AAG", "K"),
  ("AGC", "S"), ("AGT", "S"), ("AGA", "R"), ("AGG", "R"),
  ("CTA", "L"), ("CTC", "L"), ("CTG", "L"), ("CTT", "L"),
  ("CCA", "P"), ("CCC", "P"), ("CCG", "P"), ("CCT", "P"),
  ("CAC", "H"), ("CAT", "H"), ("CAA", "Q"), ("CAG", "Q"),
  ("CGA", "R"), ("CGC", "R"), ("CGG", "R"), ("CGT", "R"),
  ("GTA", "V"), ("GTC", "V"), ("GTG", "V"), ("GTT", "V"),
  ("GCA", "A"), ("GCC", "A"), ("GCG", "A"), ("GCT", "A"),
  ("GAC", "D"), ("GAT", "D"), ("GAA", "E"), ("GAG", "E"),
  ("GGA", "G"), ("GGC", "G"), ("GGG", "G"), ("GGT", "G"),
  ("TCA", "S"), ("TCC", "S"), ("TCG", "S"), ("TCT", "S"),
  ("TTC", "F"), ("TTT", "F"), ("TTA", "L"), ("TTG", "L"),
  ("TAC", "Y"), ("TAT", "Y"), ("TAA", "*"), ("TAG", "*"),
  ("TGC", "C"), ("TGT", "C"), ("TGA", "*"), ("TGG", "W")]

/-- Dictionary lookup `IGoRImport.CODON_TABLE[codon]` guarded by
`codon in IGoRImport.CODON_TABLE` (returns `none` when the key is absent). -/
def codonLookup (codon : String) : Option String :=
  (CODON_TABLE.find? (fun p => p.1 == codon)).map (fun p => p.2)

/-- The Python slice `nt_seq[i:i + 3]` (clamped at the end of the string). -/
def codonAt (nt_seq : String) (i : Nat) : String :=
  String.mk ((nt_seq.data.drop i).take 3)

/-- `IGoRImport.translate_sequence`.  The source iterates
`for i in range(0, end, 3)` with `end = len(nt_seq) - (len(nt_seq) % 3) - 1`;
`range(0, end, 3)` enumerates `0, 3, …`, i.e. `3 * j` for
`j < max 0 (ceil(end / 3))`, which is how the index list is produced here.
Each full codon is looked up in the table, an absent key contributing `"_"`,
and the pieces are joined. -/
def translate_sequence (nt_seq : String) : String :=
  let stop : Int := (nt_seq.length : Int) - ((nt_seq.length % 3 : Nat) : Int) - 1
  let numCodons : Nat := if stop ≤ 0 then 0 else (stop.toNat + 2) / 3
  String.join ((List.range numCodons).map (fun j =>
    match codonLookup (codonAt nt_seq (3 * j)) with
    | some aminoacid => aminoacid
    | none => "_"))

/-- The single output character contributed by one codon (helper for stating
positional properties of `translate_sequence`). -/
def aaChar (codon : String) : Char :=
  match codonLookup codon with
  | some a => a.data.headD '_'
  | none => '_'

/- ### Data model of the dataframe and the import configuration -/

/-- One row of the imported table.  When a column is absent from the table
(see `Table`), the corresponding field of every row is meaningless filler. -/
structure Row where
  anchors_found : String
  is_inframe : String
  sequences : String
  sequence_aas : String
  region_types : String
  counts : Int
deriving Repr, DecidableEq

/-- A pandas dataframe: a schema (which columns exist — presence is a property
of the whole table, as in pandas) plus the list of rows in order. -/
structure Table where
  hasCounts : Bool
  hasAnchorsFound : Bool
  hasIsInframe : Bool
  hasSequences : Bool
  hasSequenceAas : Bool
  hasRegionTypes : Bool
  rows : List Row
deriving Repr, DecidableEq

/-- Modelled from the spec: the `RegionType` enum lives outside the given
sources; the spec names `IMGT_CDR3` as the default (the value with
junction-to-CDR3 trimming) and says any other name imports sequences as they
are, so the enum is modelled with the default and two representative
non-trimming values. -/
inductive RegionType where
  | IMGT_CDR3
  | IMGT_JUNCTION
  | FULL_SEQUENCE
deriving Repr, DecidableEq

/-- `RegionType.name`: the canonical name string of the enum member. -/
def RegionType.name : RegionType → String
  | .IMGT_CDR3 => "IMGT_CDR3"
  | .IMGT_JUNCTION => "IMGT_JUNCTION"
  | .FULL_SEQUENCE => "FULL_SEQUENCE"

/-- The fields of `DatasetImportParams` consulted by
`IGoRImport.preprocess_dataframe`. -/
structure DatasetImportParams where
  import_with_stop_codon : Bool
  import_out_of_frame : Bool
  import_illegal_characters : Bool
  import_empty_nt_sequences : Bool
  region_type : RegionType
deriving Repr, DecidableEq

/-- The documented defaults of the IGoR import configuration. -/
def defaultParams : DatasetImportParams :=
  { import_with_stop_codon := false
    import_out_of_frame := false
    import_illegal_characters := false
    import_empty_nt_sequences := true
    region_type := RegionType.IMGT_CDR3 }

/- ### The pipeline stages of preprocess_dataframe, in source order -/

/-- `if "counts" not in df.columns: df["counts"] = 1`. -/
def add_default_counts (df : Table) : Table :=
  if df.hasCounts then df
  else { df with hasCounts := true,
                 rows := df.rows.map (fun r => { r with counts := 1 }) }

/-- `df = df[df.anchors_found == "1"]`. -/
def anchor_filter (df : Table) : Table :=
  { df with rows := df.rows.filter (fun r => r.anchors_found == "1") }

/-- `df = df[df.is_inframe == "1"]`. -/
def frame_filter (df : Table) : Table :=
  { df with rows := df.rows.filter (fun r => r.is_inframe == "1") }

/-- `df["sequence_aas"] = df["sequences"].apply(IGoRImport.translate_sequence)`. -/
def translation_stage (df : Table) : Table :=
  { df with hasSequenceAas := true,
            rows := df.rows.map (fun r =>
              { r with sequence_aas := translate_sequence r.sequences }) }

/-- `no_stop_codon = ["*" not in seq for seq in df.sequence_aas]`;
`df = df[no_stop_codon]`. -/
def stop_codon_filter (df : Table) : Table :=
  { df with rows := df.rows.filter (fun r => !(r.sequence_aas.data.contains '*')) }

/-- `df.loc[:, "region_types"] = params.region_type.name`. -/
def set_region_types (df : Table) (rt : RegionType) : Table :=
  { df with hasRegionTypes := true,
            rows := df.rows.map (fun r => { r with region_types := rt.name }) }

/-- The Python slice `s[k:-k]`, i.e. drop `k` characters at each end
(empty when `len s ≤ 2 * k`). -/
def pyStrip (s : String) (k : Nat) : String :=
  String.mk ((s.data.drop k).take (s.length - 2 * k))

/-- Modelled from the spec: the body of `ImportHelper.junction_to_cdr3` is not
among the given sources.  Per the spec (region-trimming collaborator, stage 6)
and the importer's own docstring, region type `IMGT_CDR3` means the first and
last residue are removed — one amino acid from `sequence_aas` and one codon
(three nucleotides) from `sequences`, with Python slice semantics — while any
other region type imports the sequences as they are. -/
def junction_to_cdr3 (df : Table) (rt : RegionType) : Table :=
  if rt = RegionType.IMGT_CDR3 then
    { df with rows := df.rows.map (fun r =>
        { r with sequence_aas := pyStrip r.sequence_aas 1,
                 sequences := pyStrip r.sequences 3 }) }
  else df

/-- Modelled from the spec: the body of `ImportHelper.drop_empty_sequences` is
not among the given sources.  Per the spec (empty-sequence collaborator,
stage 7) it drops rows with an empty amino-acid sequence when the second
argument requires amino acids, and drops rows with an empty nucleotide
sequence unless the third argument permits empty nucleotide sequences. -/
def drop_empty_sequences (df : Table) (aaRequired importEmptyNt : Bool) : Table :=
  { df with rows := df.rows.filter (fun r =>
      (!aaRequired || !(r.sequence_aas == "")) &&
      (importEmptyNt || !(r.sequences == ""))) }

/-- The amino-acid alphabet of the broader system: the 20 amino-acid letters
plus the stop symbol. -/
def AA_ALPHABET : List Char :=
  ['A', 'C', 'D', 'E', 'F', 'G', 'H', 'I', 'K', 'L',
   'M', 'N', 'P', 'Q', 'R', 'S', 'T', 'V', 'W', 'Y', '*']

/-- Whether every character of the amino-acid sequence lies in the
amino-acid alphabet. -/
def aaLegal (r : Row) : Bool :=
  r.sequence_aas.data.all (fun c => AA_ALPHABET.contains c)

/-- Modelled from the spec: the body of
`ImportHelper.drop_illegal_character_sequences` is not among the given
sources.  Per the spec (stage 8) it drops, when illegal characters are not to
be imported, the rows whose sequence for the active sequence type contains a
character outside that type's alphabet; the active sequence type is an
external input left open by the spec and is modelled here as amino acid, with
the 20-amino-acid-plus-stop alphabet. -/
def drop_illegal_character_sequences (df : Table) (importIllegal : Bool) : Table :=
  if importIllegal then df
  else { df with rows := df.rows.filter aaLegal }

/-- `IGoRImport.preprocess_dataframe`, stage by stage in source order.  An
access to a column that is absent from the dataframe raises in pandas
(`AttributeError` for `df.col`, `KeyError` for `df["col"]`); this is embedded
as `Except.error`. -/
def preprocess_dataframe (df : Table) (params : DatasetImportParams) :
    Except String Table :=
  let df := add_default_counts df
  if !df.hasAnchorsFound then
    Except.error "AttributeError: anchors_found"
  else
    let df := anchor_filter df
    if !params.import_out_of_frame && !df.hasIsInframe then
      Except.error "AttributeError: is_inframe"
    else
      let df := if !params.import_out_of_frame then frame_filter df else df
      if !df.hasSequences then
        Except.error "KeyError: sequences"
      else
        let df := translation_stage df
        let df := if !params.import_with_stop_codon then stop_codon_filter df else df
        let df := junction_to_cdr3 df params.region_type
        let df := set_region_types df params.region_type
        let df := drop_empty_sequences df true params.import_empty_nt_sequences
        let df := drop_illegal_character_sequences df params.import_illegal_characters
        Except.ok df

/- ### Proof-layer composition of the stages -/

/-- The first (fallible-access) half of the pipeline: counts default, anchor
filter, and the conditional frame filter. -/
def preFrame (df : Table) (p : DatasetImportParams) : Table :=
  if !p.import_out_of_frame then frame_filter (anchor_filter (add_default_counts df))
  else anchor_filter (add_default_counts df)

/-- The second half of the pipeline: translation, conditional stop-codon
filter, region trimming, region-name overwrite, and the two final row
filters. -/
def pipelineTail (df : Table) (p : DatasetImportParams) : Table :=
  let df := translation_stage df
  let df := if !p.import_with_stop_codon then stop_codon_filter df else df
  let df := junction_to_cdr3 df p.region_type
  let df := set_region_types df p.region_type
  let df := drop_empty_sequences df true p.import_empty_nt_sequences
  drop_illegal_character_sequences df p.import_illegal_characters

/- ### Concrete tables and configurations from the specification examples -/

/-- The first example row: anchors found, in frame, nucleotides `ATGAAATAG`. -/
def exRow1 : Row :=
  { anchors_found := "1", is_inframe := "1", sequences := "ATGAAATAG",
    sequence_aas := "", region_types := "", counts := 0 }

/-- The second example row: anchors not found. -/
def exRow2 : Row :=
  { anchors_found := "0", is_inframe := "1", sequences := "ATGAAA",
    sequence_aas := "", region_types := "", counts := 0 }

/-- The two-row example table of the spec (no `counts` column yet). -/
def exTable : Table :=
  { hasCounts := false, hasAnchorsFound := true, hasIsInframe := true,
    hasSequences := true, hasSequenceAas := false, hasRegionTypes := false,
    rows := [exRow1, exRow2] }

/-- The defaults with `import_with_stop_codon` switched on. -/
def stopParams : DatasetImportParams :=
  { defaultParams with import_with_stop_codon := true }

/-- The defaults with stop codons kept and a non-trimming region type. -/
def fullParams : DatasetImportParams :=
  { defaultParams with
      import_with_stop_codon := true
      region_type := RegionType.FULL_SEQUENCE }

/-- The defaults with empty nucleotide sequences disallowed. -/
def noEmptyNtParams : DatasetImportParams :=
  { defaultParams with import_empty_nt_sequences := false }

/-- The empty result table: all columns present, no surviving rows. -/
def exEmptyOut : Table :=
  { hasCounts := true, hasAnchorsFound := true, hasIsInframe := true,
    hasSequences := true, hasSequenceAas := true, hasRegionTypes := true,
    rows := [] }

/-- The result of the example run with stop codons kept: the first row
survives, trimmed by the `IMGT_CDR3` region convention. -/
def exStopRow : Row :=
  { anchors_found := "1", is_inframe := "1", sequences := "AAA",
    sequence_aas := "K", region_types := "IMGT_CDR3", counts := 1 }

def exStopOut : Table :=
  { exEmptyOut with rows := [exStopRow] }

/-- The result of the example run with stop codons kept and no trimming. -/
def exFullRow : Row :=
  { anchors_found := "1", is_inframe := "1", sequences := "ATGAAATAG",
    sequence_aas := "MK*", region_types := "FULL_SEQUENCE", counts := 1 }

def exFullOut : Table :=
  { exEmptyOut with rows := [exFullRow] }

/-- A stop-codon-free single-row table. -/
def witRow : Row :=
  { anchors_found := "1", is_inframe := "1", sequences := "ATGAAAAAA",
    sequence_aas := "", region_types := "", counts := 0 }

/-- A single-row input without a `counts` column. -/
def witTable : Table :=
  { exTable with rows := [witRow] }

/-- The default-configuration result for `witTable`. -/
def witOut : Table :=
  { exEmptyOut with rows := [exStopRow] }

/-- A single-row input that already has a `counts` column with value 5. -/
def cntRow : Row :=
  { anchors_found := "1", is_inframe := "1", sequences := "ATGAAAAAA",
    sequence_aas := "", region_types := "", counts := 5 }

/-- The table holding `cntRow`, `counts` column present. -/
def cntTable : Table :=
  { exTable with
      hasCounts := true
      rows := [cntRow] }

/-- The default-configuration result for `cntTable`: the count 5 survives. -/
def cntOutRow : Row :=
  { anchors_found := "1", is_inframe := "1", sequences := "AAA",
    sequence_aas := "K", region_types := "IMGT_CDR3", counts := 5 }

def cntOut : Table :=
  { exEmptyOut with rows := [cntOutRow] }

/-- The example table with its `anchors_found` column removed. -/
def noAnchorsTable : Table :=
  { exTable with hasAnchorsFound := false }


/- ### Auxiliary lemmas about the translator -/

theorem numCodons_eq (n : Nat) :
    (if ((n : Int) - ((n % 3 : Nat) : Int) - 1) ≤ 0 then (0 : Nat)
     else (((n : Int) - ((n % 3 : Nat) : Int) - 1).toNat + 2) / 3) = n / 3 := by
  split <;> omega

theorem join_data (l : List String) :
    (String.join l).data = (l.map String.data).flatten := by
  suffices h : ∀ acc : String, (l.foldl (fun r s => r ++ s) acc).data
      = acc.data ++ (l.map String.data).flatten by
    simpa [String.join] using h ""
  induction l with
  | nil => intro acc; simp
  | cons a t ih =>
    intro acc
    simp [List.foldl_cons, ih, String.data_append]

theorem flatten_map_singleton {α : Type} (g : α → List Char) (l : List α)
    (h : ∀ a ∈ l, (g a).length = 1) :
    (l.map g).flatten = l.map (fun a => (g a).headD '_') := by
  induction l with
  | nil => simp
  | cons a t ih =>
    have ha : (g a).length = 1 := h a (by simp)
    obtain ⟨c, hc⟩ : ∃ c, g a = [c] := by
      cases hg : g a with
      | nil => rw [hg] at ha; simp at ha
      | cons x xs =>
        refine ⟨x, ?_⟩
        rw [hg] at ha
        simp at ha
        simp [ha]
    have ht : ∀ b ∈ t, (g b).length = 1 := fun b hb => h b (by simp [hb])
    simp [hc, ih ht]

theorem codon_values_length : ∀ p ∈ CODON_TABLE, p.2.data.length = 1 := by
  decide

theorem codonLookup_mem {codon a : String} (h : codonLookup codon = some a) :
    ∃ p ∈ CODON_TABLE, p.1 = codon ∧ p.2 = a := by
  unfold codonLookup at h
  cases hf : CODON_TABLE.find? (fun p => p.1 == codon) with
  | none => rw [hf] at h; simp at h
  | some p =>
    rw [hf] at h
    simp at h
    refine ⟨p, List.mem_of_find?_eq_some hf, ?_, h⟩
    have := List.find?_some hf
    simpa using this

theorem piece_data_length (s : String) (j : Nat) :
    ((match codonLookup (codonAt s (3 * j)) with
      | some aminoacid => aminoacid
      | none => "_") : String).data.length = 1 := by
  cases h : codonLookup (codonAt s (3 * j)) with
  | none => rfl
  | some a =>
    obtain ⟨p, hp, _, hpa⟩ := codonLookup_mem h
    simpa [hpa] using codon_values_length p hp

/-- Master characterization: the character list of the output of
`translate_sequence` is the per-codon character, for exactly
`len / 3` codons taken at offsets `0, 3, 6, …`. -/
theorem translate_data (s : String) :
    (translate_sequence s).data
      = (List.range (s.length / 3)).map (fun j => aaChar (codonAt s (3 * j))) := by
  simp only [translate_sequence]
  rw [numCodons_eq s.length, join_data, List.map_map]
  simp only [Function.comp_def]
  rw [flatten_map_singleton _ _ (fun j _ => piece_data_length s j)]
  refine List.map_congr_left (fun j _ => ?_)
  cases h : codonLookup (codonAt s (3 * j)) with
  | none => simp [aaChar, h]
  | some a => simp [aaChar, h]

theorem translate_length (s : String) :
    (translate_sequence s).length = s.length / 3 := by
  have h : (translate_sequence s).length = (translate_sequence s).data.length := rfl
  rw [h, translate_data, List.length_map, List.length_range]

/- ### Claims about the translator -/

/-- C1: for each of the 64 codon triplets of the table (the standard genetic
code), `translate_sequence` applied to that triplet returns exactly the
expected single-letter residue, and `TAA`, `TAG`, `TGA` each return `"*"`. -/
theorem C1_translate_matches_codon_table :
    (CODON_TABLE.all (fun p => translate_sequence p.1 == p.2)) = true ∧
    CODON_TABLE.length = 64 ∧
    translate_sequence "TAA" = "*" ∧
    translate_sequence "TAG" = "*" ∧
    translate_sequence "TGA" = "*" := by
  refine ⟨by decide, by decide, by decide, by decide, by decide⟩

/-- C2: for every input string `s`, the output of `translate_sequence` has
length exactly `len s / 3` (trailing leftover characters are discarded), and
`translate_sequence "" = ""`. -/
theorem C2_translate_length :
    (∀ s : String, (translate_sequence s).length = s.length / 3) ∧
    translate_sequence "" = "" :=
  ⟨translate_length, by decide⟩

/-- C3: any full codon (the 3-character group at offset `3 * j`) that is not a
key of the codon table is translated to the placeholder `'_'` rather than
raising an error; in particular `translate_sequence "ATGNNN" = "M_"`. -/
theorem C3_unknown_codon_placeholder :
    (∀ (s : String) (j : Nat), j < s.length / 3 →
      codonLookup (codonAt s (3 * j)) = none →
      (translate_sequence s).data[j]? = some '_') ∧
    translate_sequence "ATGNNN" = "M_" := by
  constructor
  · intro s j hj hnone
    rw [translate_data, List.getElem?_map, List.getElem?_range hj]
    simp [aaChar, hnone]
  · decide

theorem C3_unknown_codon_placeholder_witness :
    (1 < ("ATGNNN" : String).length / 3 ∧
      codonLookup (codonAt "ATGNNN" (3 * 1)) = none) ∧
    (translate_sequence "ATGNNN").data[1]? = some '_' :=
  ⟨⟨by decide, by decide⟩,
    C3_unknown_codon_placeholder.1 "ATGNNN" 1 (by decide) (by decide)⟩

/-- C10: `translate_sequence` is a total function (it is a Lean `def`, so it
terminates and returns a string on every input), and every character of its
output is a value of the codon table (the 20 amino-acid letters and `'*'`) or
the placeholder `'_'`. -/
theorem C10_translate_total_alphabet :
    ∀ (s : String), ∀ c ∈ (translate_sequence s).data,
      (∃ p ∈ CODON_TABLE, p.2 = String.mk [c]) ∨ c = '_' := by
  intro s c hc
  rw [translate_data] at hc
  simp only [List.mem_map] at hc
  obtain ⟨j, _, hj⟩ := hc
  cases h : codonLookup (codonAt s (3 * j)) with
  | none =>
    right
    rw [← hj]
    simp [aaChar, h]
  | some a =>
    left
    obtain ⟨p, hp, _, hpa⟩ := codonLookup_mem h
    refine ⟨p, hp, ?_⟩
    have hlen := codon_values_length p hp
    obtain ⟨c0, hc0⟩ : ∃ c0, p.2.data = [c0] := by
      cases hg : p.2.data with
      | nil => rw [hg] at hlen; simp at hlen
      | cons x xs =>
        rw [hg] at hlen
        simp at hlen
        exact ⟨x, by simp [hlen]⟩
    have hchar : aaChar (codonAt s (3 * j)) = c0 := by
      simp [aaChar, h, hpa ▸ hc0]
    have : c0 = c := by rw [← hchar, hj]
    subst this
    have hmk : String.mk p.2.data = p.2 := rfl
    rw [← hmk, hc0]

theorem C10_translate_total_alphabet_witness :
    ('M' ∈ (translate_sequence "ATG").data) ∧
    ((∃ p ∈ CODON_TABLE, p.2 = String.mk ['M']) ∨ 'M' = '_') :=
  ⟨by decide, C10_translate_total_alphabet "ATG" 'M' (by decide)⟩

theorem add_default_counts_hasAnchorsFound (df : Table) :
    (add_default_counts df).hasAnchorsFound = df.hasAnchorsFound := by
  unfold add_default_counts; split <;> rfl

theorem add_default_counts_hasIsInframe (df : Table) :
    (add_default_counts df).hasIsInframe = df.hasIsInframe := by
  unfold add_default_counts; split <;> rfl

theorem add_default_counts_hasSequences (df : Table) :
    (add_default_counts df).hasSequences = df.hasSequences := by
  unfold add_default_counts; split <;> rfl

theorem add_default_counts_hasCounts (df : Table) :
    (add_default_counts df).hasCounts = true := by
  unfold add_default_counts; split
  · assumption
  · rfl

theorem anchor_filter_hasIsInframe (df : Table) :
    (anchor_filter df).hasIsInframe = df.hasIsInframe := rfl

theorem anchor_filter_hasSequences (df : Table) :
    (anchor_filter df).hasSequences = df.hasSequences := rfl

theorem frame_filter_hasSequences (df : Table) :
    (frame_filter df).hasSequences = df.hasSequences := rfl

theorem ite_not_true {α : Type} (a b : α) :
    (if (!(true : Bool)) = true then a else b) = b := rfl

theorem ite_not_false {α : Type} (a b : α) :
    (if (!(false : Bool)) = true then a else b) = a := rfl

theorem ite_and_ff {α : Type} (a b : α) :
    (if (!(false : Bool) && !(true : Bool)) = true then a else b) = b := rfl

theorem ite_and_ft {α : Type} (a b : α) :
    (if (!(false : Bool) && !(false : Bool)) = true then a else b) = a := rfl

theorem ite_and_t {α : Type} (x : Bool) (a b : α) :
    (if (!(true : Bool) && x) = true then a else b) = b := rfl

theorem preprocess_error_anchors (df : Table) (p : DatasetImportParams)
    (h : df.hasAnchorsFound = false) :
    preprocess_dataframe df p = Except.error "AttributeError: anchors_found" := by
  simp only [preprocess_dataframe]
  rw [add_default_counts_hasAnchorsFound, h, ite_not_false]

theorem preprocess_error_inframe (df : Table) (p : DatasetImportParams)
    (hA : df.hasAnchorsFound = true) (ho : p.import_out_of_frame = false)
    (hi : df.hasIsInframe = false) :
    preprocess_dataframe df p = Except.error "AttributeError: is_inframe" := by
  simp only [preprocess_dataframe]
  rw [add_default_counts_hasAnchorsFound, hA, ite_not_true,
    anchor_filter_hasIsInframe, add_default_counts_hasIsInframe, hi, ho, ite_and_ft]

theorem preprocess_error_sequences (df : Table) (p : DatasetImportParams)
    (hA : df.hasAnchorsFound = true)
    (hI : p.import_out_of_frame = false → df.hasIsInframe = true)
    (hs : df.hasSequences = false) :
    preprocess_dataframe df p = Except.error "KeyError: sequences" := by
  simp only [preprocess_dataframe]
  rw [add_default_counts_hasAnchorsFound, hA, ite_not_true]
  cases ho : p.import_out_of_frame
  · rw [anchor_filter_hasIsInframe, add_default_counts_hasIsInframe, hI ho,
      ite_and_ff, ite_not_false, frame_filter_hasSequences,
      anchor_filter_hasSequences, add_default_counts_hasSequences, hs, ite_not_false]
  · rw [ite_and_t, ite_not_true, anchor_filter_hasSequences,
      add_default_counts_hasSequences, hs, ite_not_false]

theorem preprocess_run (df : Table) (p : DatasetImportParams)
    (hA : df.hasAnchorsFound = true) (hS : df.hasSequences = true)
    (hI : p.import_out_of_frame = false → df.hasIsInframe = true) :
    preprocess_dataframe df p = Except.ok (pipelineTail (preFrame df p) p) := by
  simp only [preprocess_dataframe, preFrame, pipelineTail]
  rw [add_default_counts_hasAnchorsFound, hA, ite_not_true]
  cases ho : p.import_out_of_frame
  · rw [anchor_filter_hasIsInframe, add_default_counts_hasIsInframe, hI ho,
      ite_and_ff, ite_not_false, frame_filter_hasSequences,
      anchor_filter_hasSequences, add_default_counts_hasSequences, hS, ite_not_true]
  · rw [ite_and_t, ite_not_true, anchor_filter_hasSequences,
      add_default_counts_hasSequences, hS, ite_not_true]

/-- `preprocess_dataframe` succeeds exactly when the accessed columns exist,
and then its result is the composition of the stages. -/
theorem preprocess_ok_iff (df : Table) (p : DatasetImportParams) (out : Table) :
    preprocess_dataframe df p = Except.ok out ↔
      df.hasAnchorsFound = true ∧ df.hasSequences = true ∧
      (p.import_out_of_frame = false → df.hasIsInframe = true) ∧
      out = pipelineTail (preFrame df p) p := by
  constructor
  · intro h
    have hA : df.hasAnchorsFound = true := by
      cases hb : df.hasAnchorsFound
      · rw [preprocess_error_anchors df p hb] at h; exact absurd h (by simp)
      · rfl
    have hI : p.import_out_of_frame = false → df.hasIsInframe = true := by
      intro ho
      cases hb : df.hasIsInframe
      · rw [preprocess_error_inframe df p hA ho hb] at h; exact absurd h (by simp)
      · rfl
    have hS : df.hasSequences = true := by
      cases hb : df.hasSequences
      · rw [preprocess_error_sequences df p hA hI hb] at h; exact absurd h (by simp)
      · rfl
    rw [preprocess_run df p hA hS hI] at h
    injection h with h2
    exact ⟨hA, hS, hI, h2.symm⟩
  · rintro ⟨hA, hS, hI, rfl⟩
    exact preprocess_run df p hA hS hI

/- ### Row-membership decomposition of the stages -/

theorem drop_illegal_mem {df : Table} {b : Bool} {r : Row}
    (hr : r ∈ (drop_illegal_character_sequences df b).rows) :
    r ∈ df.rows ∧ (b = false → aaLegal r = true) := by
  cases b <;> simp_all [drop_illegal_character_sequences, List.mem_filter]

theorem drop_empty_mem {df : Table} {aaReq ient : Bool} {r : Row}
    (hr : r ∈ (drop_empty_sequences df aaReq ient).rows) :
    r ∈ df.rows ∧ (aaReq = true → r.sequence_aas ≠ "") ∧
      (ient = false → r.sequences ≠ "") := by
  cases aaReq <;> cases ient <;>
    simp_all [drop_empty_sequences, List.mem_filter]

theorem set_region_types_mem {df : Table} {rt : RegionType} {r : Row}
    (hr : r ∈ (set_region_types df rt).rows) :
    ∃ r2 ∈ df.rows, r = { r2 with region_types := rt.name } := by
  simp only [set_region_types, List.mem_map] at hr
  obtain ⟨r2, h2, heq⟩ := hr
  exact ⟨r2, h2, heq.symm⟩

theorem junction_mem {df : Table} {rt : RegionType} {r : Row}
    (hr : r ∈ (junction_to_cdr3 df rt).rows) :
    ∃ r1 ∈ df.rows,
      (rt = RegionType.IMGT_CDR3 ∧
        r = { r1 with sequence_aas := pyStrip r1.sequence_aas 1,
                      sequences := pyStrip r1.sequences 3 }) ∨
      (rt ≠ RegionType.IMGT_CDR3 ∧ r = r1) := by
  unfold junction_to_cdr3 at hr
  by_cases h : rt = RegionType.IMGT_CDR3
  · rw [if_pos h] at hr
    simp only [List.mem_map] at hr
    obtain ⟨r1, h1, heq⟩ := hr
    exact ⟨r1, h1, Or.inl ⟨h, heq.symm⟩⟩
  · rw [if_neg h] at hr
    exact ⟨r, hr, Or.inr ⟨h, rfl⟩⟩

theorem stop_stage_mem {df : Table} {b : Bool} {r : Row}
    (hr : r ∈ (if !b then stop_codon_filter df else df).rows) :
    r ∈ df.rows ∧ (b = false → r.sequence_aas.data.contains '*' = false) := by
  cases b <;> simp_all [stop_codon_filter, List.mem_filter]

theorem translation_mem {df : Table} {r : Row}
    (hr : r ∈ (translation_stage df).rows) :
    ∃ r0 ∈ df.rows, r = { r0 with sequence_aas := translate_sequence r0.sequences } := by
  simp only [translation_stage, List.mem_map] at hr
  obtain ⟨r0, h0, heq⟩ := hr
  exact ⟨r0, h0, heq.symm⟩

/-- Every row of the output of the second pipeline half comes from a row of
its input, with the listed field relationships and filter guarantees. -/
theorem pipelineTail_mem {mid : Table} {p : DatasetImportParams} {r : Row}
    (hr : r ∈ (pipelineTail mid p).rows) :
    ∃ r0 ∈ mid.rows,
      r.anchors_found = r0.anchors_found ∧
      r.is_inframe = r0.is_inframe ∧
      r.counts = r0.counts ∧
      r.region_types = p.region_type.name ∧
      (p.import_with_stop_codon = false →
        (translate_sequence r0.sequences).data.contains '*' = false) ∧
      ((p.region_type = RegionType.IMGT_CDR3 ∧
          r.sequence_aas = pyStrip (translate_sequence r0.sequences) 1 ∧
          r.sequences = pyStrip r0.sequences 3) ∨
        (p.region_type ≠ RegionType.IMGT_CDR3 ∧
          r.sequence_aas = translate_sequence r0.sequences ∧
          r.sequences = r0.sequences)) ∧
      r.sequence_aas ≠ "" ∧
      (p.import_empty_nt_sequences = false → r.sequences ≠ "") ∧
      (p.import_illegal_characters = false → aaLegal r = true) := by
  unfold pipelineTail at hr
  obtain ⟨hr1, hIll⟩ := drop_illegal_mem hr
  obtain ⟨hr2, hAa, hNt⟩ := drop_empty_mem hr1
  obtain ⟨r2, hr3, hreq⟩ := set_region_types_mem hr2
  obtain ⟨r1, hr4, hj⟩ := junction_mem hr3
  obtain ⟨hr5, hstop⟩ := stop_stage_mem hr4
  obtain ⟨r0, hr6, h0⟩ := translation_mem hr5
  subst hreq
  subst h0
  refine ⟨r0, hr6, ?_⟩
  rcases hj with ⟨hrt, heq⟩ | ⟨hrt, heq⟩ <;> subst heq <;>
    simp_all

/-- Every row surviving the first pipeline half passed the anchor filter, the
conditional frame filter, and carries the defaulted count when the input had
no `counts` column. -/
theorem preFrame_mem {df : Table} {p : DatasetImportParams} {r0 : Row}
    (hr : r0 ∈ (preFrame df p).rows) :
    r0.anchors_found = "1" ∧
    (p.import_out_of_frame = false → r0.is_inframe = "1") ∧
    (df.hasCounts = false → r0.counts = 1) := by
  unfold preFrame frame_filter anchor_filter add_default_counts at hr
  cases ho : p.import_out_of_frame <;> cases hc : df.hasCounts <;>
    simp_all [List.mem_filter, List.mem_map] <;>
    obtain ⟨rIn, -, rfl⟩ := hr.1 <;> rfl

/- ### Claims about the pipeline -/

/-- C6: every row present in the table returned by `preprocess_dataframe` has
`anchors_found = "1"` (other rows are dropped silently, and no later stage
changes the field). -/
theorem C6_anchors_invariant (df : Table) (p : DatasetImportParams) (out : Table)
    (h : preprocess_dataframe df p = Except.ok out) :
    ∀ r ∈ out.rows, r.anchors_found = "1" := by
  rw [preprocess_ok_iff] at h
  obtain ⟨-, -, -, rfl⟩ := h
  intro r hr
  obtain ⟨r0, h0, hanch, -⟩ := pipelineTail_mem hr
  rw [hanch]
  exact (preFrame_mem h0).1

/-- C5: after `preprocess_dataframe` completes no surviving row has an empty
derived amino-acid sequence, whatever the configuration, and when
`import_empty_nt_sequences` is false no surviving row has an empty nucleotide
sequence either. -/
theorem C5_empty_sequences_dropped (df : Table) (p : DatasetImportParams)
    (out : Table) (h : preprocess_dataframe df p = Except.ok out) :
    (∀ r ∈ out.rows, r.sequence_aas ≠ "") ∧
    (p.import_empty_nt_sequences = false → ∀ r ∈ out.rows, r.sequences ≠ "") := by
  rw [preprocess_ok_iff] at h
  obtain ⟨-, -, -, rfl⟩ := h
  constructor
  · intro r hr
    obtain ⟨r0, h0, -, -, -, -, -, -, haa, -⟩ := pipelineTail_mem hr
    exact haa
  · intro hient r hr
    obtain ⟨r0, h0, -, -, -, -, -, -, -, hnt, -⟩ := pipelineTail_mem hr
    exact hnt hient

/- ### Identity of the stages on already-processed tables -/

theorem contains_false_of_subset {l1 l2 : List Char} {a : Char}
    (hsub : l1 ⊆ l2) (h : l2.contains a = false) : l1.contains a = false := by
  by_contra hc
  have h1 : l1.contains a = true := by simpa using hc
  have h2 : a ∈ l1 := by simpa using h1
  have h3 : a ∈ l2 := hsub h2
  have h4 : l2.contains a = true := by simpa using h3
  rw [h4] at h
  exact absurd h (by simp)

theorem pyStrip_data_subset (s : String) (k : Nat) : (pyStrip s k).data ⊆ s.data := by
  intro c hc
  exact List.drop_subset _ _ (List.take_subset _ _ hc)

theorem add_default_counts_id {df : Table} (h : df.hasCounts = true) :
    add_default_counts df = df := by
  simp [add_default_counts, h]

theorem anchor_filter_id {df : Table}
    (h : ∀ r ∈ df.rows, r.anchors_found = "1") : anchor_filter df = df := by
  unfold anchor_filter
  rw [List.filter_eq_self.mpr (fun r hr => by rw [h r hr]; rfl)]

theorem frame_filter_id {df : Table}
    (h : ∀ r ∈ df.rows, r.is_inframe = "1") : frame_filter df = df := by
  unfold frame_filter
  rw [List.filter_eq_self.mpr (fun r hr => by rw [h r hr]; rfl)]

theorem translation_stage_id {df : Table} (haa : df.hasSequenceAas = true)
    (h : ∀ r ∈ df.rows, r.sequence_aas = translate_sequence r.sequences) :
    translation_stage df = df := by
  unfold translation_stage
  have h2 : ∀ r ∈ df.rows,
      ({ r with sequence_aas := translate_sequence r.sequences } : Row) = r := by
    intro r hr
    have hx := h r hr
    obtain ⟨a1, a2, a3, a4, a5, a6⟩ := r
    simp_all
  have hm : df.rows.map (fun r =>
      { r with sequence_aas := translate_sequence r.sequences }) = df.rows := by
    calc df.rows.map (fun r => { r with sequence_aas := translate_sequence r.sequences })
        = df.rows.map id := List.map_congr_left h2
      _ = df.rows := List.map_id _
  rw [hm, ← haa]

theorem stop_stage_id {df : Table} {b : Bool}
    (h : b = false → ∀ r ∈ df.rows, r.sequence_aas.data.contains '*' = false) :
    (if !b then stop_codon_filter df else df) = df := by
  cases b
  · rw [ite_not_false]
    unfold stop_codon_filter
    rw [List.filter_eq_self.mpr (fun r hr => by rw [h rfl r hr]; rfl)]
  · rw [ite_not_true]

theorem junction_to_cdr3_id {df : Table} {rt : RegionType}
    (hrt : rt ≠ RegionType.IMGT_CDR3) : junction_to_cdr3 df rt = df := by
  unfold junction_to_cdr3
  rw [if_neg hrt]

theorem set_region_types_id {df : Table} {rt : RegionType}
    (hrg : df.hasRegionTypes = true)
    (h : ∀ r ∈ df.rows, r.region_types = rt.name) :
    set_region_types df rt = df := by
  unfold set_region_types
  have h2 : ∀ r ∈ df.rows, ({ r with region_types := rt.name } : Row) = r := by
    intro r hr
    have hx := h r hr
    obtain ⟨a1, a2, a3, a4, a5, a6⟩ := r
    simp_all
  have hm : df.rows.map (fun r => { r with region_types := rt.name }) = df.rows := by
    calc df.rows.map (fun r => { r with region_types := rt.name })
        = df.rows.map id := List.map_congr_left h2
      _ = df.rows := List.map_id _
  rw [hm, ← hrg]

theorem drop_empty_sequences_id {df : Table} {ient : Bool}
    (haa : ∀ r ∈ df.rows, r.sequence_aas ≠ "")
    (hnt : ient = false → ∀ r ∈ df.rows, r.sequences ≠ "") :
    drop_empty_sequences df true ient = df := by
  unfold drop_empty_sequences
  rw [List.filter_eq_self.mpr (fun r hr => ?_)]
  cases hb : ient
  · have h1 := haa r hr
    have h2 := hnt hb r hr
    simp [hb, h1, h2]
  · have h1 := haa r hr
    simp [h1]

theorem drop_illegal_id {df : Table} {b : Bool}
    (h : b = false → ∀ r ∈ df.rows, aaLegal r = true) :
    drop_illegal_character_sequences df b = df := by
  unfold drop_illegal_character_sequences
  cases b
  · rw [if_neg (by simp)]
    rw [List.filter_eq_self.mpr (fun r hr => h rfl r hr)]
  · rw [if_pos rfl]

/- ### Column flags of the composed stages -/

theorem preFrame_flags (df : Table) (p : DatasetImportParams) :
    (preFrame df p).hasCounts = true ∧
    (preFrame df p).hasAnchorsFound = df.hasAnchorsFound ∧
    (preFrame df p).hasIsInframe = df.hasIsInframe ∧
    (preFrame df p).hasSequences = df.hasSequences := by
  unfold preFrame frame_filter anchor_filter
  cases ho : p.import_out_of_frame <;>
    simp [ite_not_false, ite_not_true, add_default_counts_hasCounts,
      add_default_counts_hasAnchorsFound, add_default_counts_hasIsInframe,
      add_default_counts_hasSequences]

theorem pipelineTail_flags (mid : Table) (p : DatasetImportParams) :
    (pipelineTail mid p).hasCounts = mid.hasCounts ∧
    (pipelineTail mid p).hasAnchorsFound = mid.hasAnchorsFound ∧
    (pipelineTail mid p).hasIsInframe = mid.hasIsInframe ∧
    (pipelineTail mid p).hasSequences = mid.hasSequences ∧
    (pipelineTail mid p).hasSequenceAas = true ∧
    (pipelineTail mid p).hasRegionTypes = true := by
  unfold pipelineTail drop_illegal_character_sequences drop_empty_sequences
    set_region_types junction_to_cdr3 stop_codon_filter translation_stage
  cases hb : p.import_with_stop_codon <;>
    by_cases hrt : p.region_type = RegionType.IMGT_CDR3 <;>
    cases hil : p.import_illegal_characters <;>
    simp [hrt, ite_not_false, ite_not_true]

/-- A table that already satisfies every invariant established by the pipeline
(for a non-trimming region type) is a fixed point of `preprocess_dataframe`. -/
theorem preprocess_fixpoint (t : Table) (p : DatasetImportParams)
    (hc : t.hasCounts = true) (hA : t.hasAnchorsFound = true)
    (hS : t.hasSequences = true) (haa : t.hasSequenceAas = true)
    (hrg : t.hasRegionTypes = true)
    (hI : p.import_out_of_frame = false → t.hasIsInframe = true)
    (hrt : p.region_type ≠ RegionType.IMGT_CDR3)
    (hrows : ∀ r ∈ t.rows,
      r.anchors_found = "1" ∧
      (p.import_out_of_frame = false → r.is_inframe = "1") ∧
      r.sequence_aas = translate_sequence r.sequences ∧
      (p.import_with_stop_codon = false →
        r.sequence_aas.data.contains '*' = false) ∧
      r.region_types = p.region_type.name ∧
      r.sequence_aas ≠ "" ∧
      (p.import_empty_nt_sequences = false → r.sequences ≠ "") ∧
      (p.import_illegal_characters = false → aaLegal r = true)) :
    preprocess_dataframe t p = Except.ok t := by
  rw [preprocess_run t p hA hS hI]
  have hpre : preFrame t p = t := by
    unfold preFrame
    cases ho : p.import_out_of_frame
    · rw [ite_not_false, add_default_counts_id hc,
        anchor_filter_id (fun r hr => (hrows r hr).1),
        frame_filter_id (fun r hr => (hrows r hr).2.1 ho)]
    · rw [ite_not_true, add_default_counts_id hc,
        anchor_filter_id (fun r hr => (hrows r hr).1)]
  rw [hpre]
  have htail : pipelineTail t p = t := by
    simp only [pipelineTail]
    rw [translation_stage_id haa (fun r hr => (hrows r hr).2.2.1)]
    rw [stop_stage_id (fun hb r hr => (hrows r hr).2.2.2.1 hb)]
    rw [junction_to_cdr3_id hrt]
    rw [set_region_types_id hrg (fun r hr => (hrows r hr).2.2.2.2.1)]
    rw [drop_empty_sequences_id (fun r hr => (hrows r hr).2.2.2.2.2.1)
      (fun hb r hr => (hrows r hr).2.2.2.2.2.2.1 hb)]
    rw [drop_illegal_id (fun hb r hr => (hrows r hr).2.2.2.2.2.2.2 hb)]
  rw [htail]

/-- C7 (amended): for every configuration whose region type is not the
trimming `IMGT_CDR3`, running `preprocess_dataframe` a second time on its own
output with the same configuration returns that output unchanged. -/
theorem C7_idempotent_no_trimming (df : Table) (p : DatasetImportParams)
    (out : Table) (hrt : p.region_type ≠ RegionType.IMGT_CDR3)
    (h : preprocess_dataframe df p = Except.ok out) :
    preprocess_dataframe out p = Except.ok out := by
  rw [preprocess_ok_iff] at h
  obtain ⟨hA, hS, hI, hout⟩ := h
  obtain ⟨pf1, pf2, pf3, pf4⟩ := preFrame_flags df p
  obtain ⟨tf1, tf2, tf3, tf4, tf5, tf6⟩ := pipelineTail_flags (preFrame df p) p
  refine preprocess_fixpoint out p ?_ ?_ ?_ ?_ ?_ ?_ hrt ?_
  · rw [hout, tf1, pf1]
  · rw [hout, tf2, pf2]; exact hA
  · rw [hout, tf4, pf4]; exact hS
  · rw [hout, tf5]
  · rw [hout, tf6]
  · intro ho; rw [hout, tf3, pf3]; exact hI ho
  · intro r hr
    rw [hout] at hr
    obtain ⟨r0, h0, hanch, hinf, hcnt, hreg, hstop, hjunc, haa2, hnt, hleg⟩ :=
      pipelineTail_mem hr
    obtain ⟨panch, pinf, -⟩ := preFrame_mem h0
    rcases hjunc with ⟨hceq, -⟩ | ⟨-, haaeq, hseq⟩
    · exact absurd hceq hrt
    · refine ⟨hanch.trans panch, fun ho => hinf.trans (pinf ho),
        haaeq.trans (by rw [hseq]), fun hb => ?_, hreg, haa2, hnt, hleg⟩
      rw [haaeq]
      exact hstop hb

/- ### Preservation of the counts column -/

theorem map_counts_map (l : List Row) (f : Row → Row)
    (hf : ∀ r, (f r).counts = r.counts) :
    (l.map f).map Row.counts = l.map Row.counts := by
  rw [List.map_map]
  exact List.map_congr_left (fun r _ => hf r)

theorem pipelineTail_counts (mid : Table) (p : DatasetImportParams) :
    ((pipelineTail mid p).rows.map Row.counts).Sublist (mid.rows.map Row.counts) := by
  have h6 : ∀ df : Table,
      ((drop_illegal_character_sequences df p.import_illegal_characters).rows.map
        Row.counts).Sublist (df.rows.map Row.counts) := by
    intro df
    unfold drop_illegal_character_sequences
    split
    · exact List.Sublist.refl _
    · exact (List.filter_sublist _).map Row.counts
  have h5 : ∀ df : Table,
      ((drop_empty_sequences df true p.import_empty_nt_sequences).rows.map
        Row.counts).Sublist (df.rows.map Row.counts) :=
    fun df => (List.filter_sublist _).map Row.counts
  have h4 : ∀ df : Table,
      (set_region_types df p.region_type).rows.map Row.counts
        = df.rows.map Row.counts :=
    fun df => map_counts_map _ _ (fun r => rfl)
  have h3 : ∀ df : Table,
      (junction_to_cdr3 df p.region_type).rows.map Row.counts
        = df.rows.map Row.counts := by
    intro df
    unfold junction_to_cdr3
    split
    · exact map_counts_map _ _ (fun r => rfl)
    · rfl
  have h2 : ∀ df : Table,
      ((if !p.import_with_stop_codon then stop_codon_filter df else df).rows.map
        Row.counts).Sublist (df.rows.map Row.counts) := by
    intro df
    cases p.import_with_stop_codon
    · rw [ite_not_false]
      exact (List.filter_sublist _).map Row.counts
    · rw [ite_not_true]
  have h1 : (translation_stage mid).rows.map Row.counts = mid.rows.map Row.counts :=
    map_counts_map _ _ (fun r => rfl)
  simp only [pipelineTail]
  refine List.Sublist.trans (h6 _) ?_
  refine List.Sublist.trans (h5 _) ?_
  rw [h4, h3]
  refine List.Sublist.trans (h2 _) ?_
  rw [h1]

theorem preFrame_counts (df : Table) (p : DatasetImportParams)
    (hc : df.hasCounts = true) :
    ((preFrame df p).rows.map Row.counts).Sublist (df.rows.map Row.counts) := by
  unfold preFrame frame_filter anchor_filter
  cases ho : p.import_out_of_frame
  · rw [ite_not_false, add_default_counts_id hc]
    exact ((List.filter_sublist _).map Row.counts).trans
      ((List.filter_sublist _).map Row.counts)
  · rw [ite_not_true, add_default_counts_id hc]
    exact (List.filter_sublist _).map Row.counts

/-- C8: when the input table has no `counts` column, every surviving row has
`counts = 1`; when a `counts` column is present, the surviving rows keep their
original counts (in order — the output counts column is a sublist of the
input one, every map stage leaving counts untouched). -/
theorem C8_counts_default_and_preserved (df : Table) (p : DatasetImportParams)
    (out : Table) (h : preprocess_dataframe df p = Except.ok out) :
    (df.hasCounts = false → ∀ r ∈ out.rows, r.counts = 1) ∧
    (df.hasCounts = true →
      (out.rows.map Row.counts).Sublist (df.rows.map Row.counts)) := by
  rw [preprocess_ok_iff] at h
  obtain ⟨-, -, -, rfl⟩ := h
  constructor
  · intro hc r hr
    obtain ⟨r0, h0, -, -, hcounts, -⟩ := pipelineTail_mem hr
    rw [hcounts]
    exact (preFrame_mem h0).2.2 hc
  · intro hc
    exact (pipelineTail_counts _ _).trans (preFrame_counts df p hc)

/-- C9: a missing `sequences`, `anchors_found`, or (when frame filtering is
active) `is_inframe` column makes `preprocess_dataframe` signal an error
rather than return a table, and a missing `is_inframe` column is not an error
when `import_out_of_frame` is true (the remaining required columns present). -/
theorem C9_missing_columns_error (df : Table) (p : DatasetImportParams) :
    (df.hasAnchorsFound = false →
      ∃ e, preprocess_dataframe df p = Except.error e) ∧
    (df.hasSequences = false →
      ∃ e, preprocess_dataframe df p = Except.error e) ∧
    (p.import_out_of_frame = false → df.hasIsInframe = false →
      ∃ e, preprocess_dataframe df p = Except.error e) ∧
    (df.hasAnchorsFound = true → df.hasSequences = true →
      (p.import_out_of_frame = false → df.hasIsInframe = true) →
      ∃ t, preprocess_dataframe df p = Except.ok t) := by
  refine ⟨?_, ?_, ?_, ?_⟩
  · intro hA
    exact ⟨_, preprocess_error_anchors df p hA⟩
  · intro hS
    cases hA : df.hasAnchorsFound
    · exact ⟨_, preprocess_error_anchors df p hA⟩
    · cases ho : p.import_out_of_frame
      · cases hi : df.hasIsInframe
        · exact ⟨_, preprocess_error_inframe df p hA ho hi⟩
        · exact ⟨_, preprocess_error_sequences df p hA (fun _ => hi) hS⟩
      · refine ⟨_, preprocess_error_sequences df p hA (fun hcon => ?_) hS⟩
        rw [ho] at hcon
        exact Bool.noConfusion hcon
  · intro ho hi
    cases hA : df.hasAnchorsFound
    · exact ⟨_, preprocess_error_anchors df p hA⟩
    · exact ⟨_, preprocess_error_inframe df p hA ho hi⟩
  · intro hA hS hI
    exact ⟨_, preprocess_run df p hA hS hI⟩

/-- C4 (amended): when `import_with_stop_codon` is false no surviving row's
amino-acid sequence contains `'*'` anywhere (the filter acts on the full
translation, before region trimming); when it is true such rows pass the stop
filter — on the spec's two-row example the default configuration yields an
empty result, and with `import_with_stop_codon = true` the first row survives,
its translation at the filter being `"MK*"` and its stored amino-acid sequence
after `IMGT_CDR3` junction trimming being `"K"`. -/
theorem C4_stop_codon_filtering :
    (∀ (df : Table) (p : DatasetImportParams) (out : Table),
      p.import_with_stop_codon = false →
      preprocess_dataframe df p = Except.ok out →
      ∀ r ∈ out.rows, r.sequence_aas.data.contains '*' = false) ∧
    preprocess_dataframe exTable defaultParams = Except.ok exEmptyOut ∧
    exEmptyOut.rows = [] ∧
    preprocess_dataframe exTable stopParams = Except.ok exStopOut ∧
    translate_sequence exRow1.sequences = "MK*" ∧
    exStopOut.rows.map Row.sequence_aas = ["K"] := by
  refine ⟨?_, by rfl, rfl, by rfl, by rfl, rfl⟩
  intro df p out hsc h
  rw [preprocess_ok_iff] at h
  obtain ⟨-, -, -, rfl⟩ := h
  intro r hr
  obtain ⟨r0, h0, -, -, -, -, hstop, hjunc, -⟩ := pipelineTail_mem hr
  rcases hjunc with ⟨-, haaeq, -⟩ | ⟨-, haaeq, -⟩
  · rw [haaeq]
    exact contains_false_of_subset (pyStrip_data_subset _ _) (hstop hsc)
  · rw [haaeq]
    exact hstop hsc

/-- C4 counterexample: the claim as stated is false — with
`import_with_stop_codon = true` on the spec's example, the surviving row's
amino-acid sequence in the returned table is `"K"`, not `"MK*"` (the default
`IMGT_CDR3` region trimming strips the first and last residue after the stop
filter). -/
theorem C4_stop_codon_filtering_counterexample :
    preprocess_dataframe exTable stopParams = Except.ok exStopOut ∧
    exStopOut.rows.map Row.sequence_aas = ["K"] ∧
    (["K"] : List String) ≠ ["MK*"] :=
  ⟨by rfl, rfl, by decide⟩

theorem C4_stop_codon_filtering_witness :
    (defaultParams.import_with_stop_codon = false ∧
      preprocess_dataframe witTable defaultParams = Except.ok witOut) ∧
    ∀ r ∈ witOut.rows, r.sequence_aas.data.contains '*' = false :=
  ⟨⟨rfl, by rfl⟩,
    C4_stop_codon_filtering.1 witTable defaultParams witOut rfl (by rfl)⟩

/-- C7 counterexample: the claim as stated is false — with the default
(trimming) region type `IMGT_CDR3` and `import_with_stop_codon = true`, the
pipeline applied to its own output trims and re-translates again, and the sole
surviving row is dropped on the second run. -/
theorem C7_idempotence_counterexample :
    preprocess_dataframe exTable stopParams = Except.ok exStopOut ∧
    preprocess_dataframe exStopOut stopParams = Except.ok exEmptyOut ∧
    exEmptyOut ≠ exStopOut :=
  ⟨by rfl, by rfl, by decide⟩

theorem C7_idempotent_no_trimming_witness :
    (fullParams.region_type ≠ RegionType.IMGT_CDR3 ∧
      preprocess_dataframe exTable fullParams = Except.ok exFullOut) ∧
    preprocess_dataframe exFullOut fullParams = Except.ok exFullOut :=
  ⟨⟨by decide, by rfl⟩,
    C7_idempotent_no_trimming exTable fullParams exFullOut (by decide) (by rfl)⟩

theorem C5_empty_sequences_dropped_witness :
    preprocess_dataframe witTable noEmptyNtParams = Except.ok witOut ∧
    ((∀ r ∈ witOut.rows, r.sequence_aas ≠ "") ∧
      (noEmptyNtParams.import_empty_nt_sequences = false →
        ∀ r ∈ witOut.rows, r.sequences ≠ "")) :=
  ⟨by rfl, C5_empty_sequences_dropped witTable noEmptyNtParams witOut (by rfl)⟩

theorem C6_anchors_invariant_witness :
    preprocess_dataframe exTable stopParams = Except.ok exStopOut ∧
    ∀ r ∈ exStopOut.rows, r.anchors_found = "1" :=
  ⟨by rfl, C6_anchors_invariant exTable stopParams exStopOut (by rfl)⟩

theorem C8_counts_default_and_preserved_witness :
    (witTable.hasCounts = false ∧
      preprocess_dataframe witTable defaultParams = Except.ok witOut ∧
      ∀ r ∈ witOut.rows, r.counts = 1) ∧
    (cntTable.hasCounts = true ∧
      preprocess_dataframe cntTable defaultParams = Except.ok cntOut ∧
      (cntOut.rows.map Row.counts).Sublist (cntTable.rows.map Row.counts)) :=
  ⟨⟨rfl, by rfl,
      (C8_counts_default_and_preserved witTable defaultParams witOut (by rfl)).1 rfl⟩,
    ⟨rfl, by rfl,
      (C8_counts_default_and_preserved cntTable defaultParams cntOut (by rfl)).2 rfl⟩⟩

theorem C9_missing_columns_error_witness :
    (noAnchorsTable.hasAnchorsFound = false ∧
      ∃ e, preprocess_dataframe noAnchorsTable defaultParams = Except.error e) ∧
    (exTable.hasAnchorsFound = true ∧ exTable.hasSequences = true ∧
      (defaultParams.import_out_of_frame = false → exTable.hasIsInframe = true) ∧
      ∃ t, preprocess_dataframe exTable defaultParams = Except.ok t) :=
  ⟨⟨rfl, (C9_missing_columns_error noAnchorsTable defaultParams).1 rfl⟩,
    ⟨rfl, rfl, fun _ => rfl,
      (C9_missing_columns_error exTable defaultParams).2.2.2 rfl rfl (fun _ => rfl)⟩⟩

end IGoRImport
